import Mathlib

/-!
Verification development for the HERB motion-execution layer
(`src/herbpy/herb.py`): trajectory annotation, retiming, execution
dispatch/supervision, and the force-guarded base drive.

The Python code is shallowly embedded: pure fragments become Lean
functions, robot attributes become structure fields, the time-varying
world (sensor readings, poses, clock) becomes explicit environment
records, and exceptions become explicit outcome constructors.
-/

/-- HERB's manipulators, as registered in `robot.manipulators`
(`herbrobot.py` line 30: `[ self.left_arm, self.right_arm, self.head ]`). -/
inductive Manip
  | left_arm
  | right_arm
  | head
deriving DecidableEq

/-- The list `robot.manipulators` in its source order. -/
def herbManipulators : List Manip := [.left_arm, .right_arm, .head]

/-- Trajectory status values reported by `manipulator.GetTrajectoryStatus()`. -/
inductive TrajStatus
  | idle
  | running
  | done
  | aborted
  | stalled
deriving DecidableEq

/-- One named group of an OpenRAVE `ConfigurationSpecification`:
a name string, a column count (`dof`), and an interpolation tag. -/
structure SpecGroup where
  name : String
  dof : Nat
  interp : String
deriving DecidableEq

/-- An OpenRAVE `ConfigurationSpecification`: an ordered list of groups. -/
structure ConfigSpec where
  groups : List SpecGroup
deriving DecidableEq

/-- `ConfigurationSpecification.GetDOF()`: total column count. -/
def ConfigSpec.GetDOF (s : ConfigSpec) : Nat :=
  (s.groups.map SpecGroup.dof).sum

/-- `ConfigurationSpecification.AddGroup(name, dof, interp)`: appends a new
group after the existing ones. -/
def ConfigSpec.AddGroup (s : ConfigSpec) (name : String) (dof : Nat)
    (interp : String) : ConfigSpec :=
  ⟨s.groups ++ [⟨name, dof, interp⟩]⟩

/-- An OpenRAVE trajectory: a configuration spec and the waypoint rows,
each row a list of rationals of width `spec.GetDOF`. -/
structure Traj where
  spec : ConfigSpec
  waypoints : List (List ℚ)
deriving DecidableEq

/-- A Python number as it reaches `str(...)` in the annotation code:
either an `int`, or a float written as the decimal literal
`mantissa * 10 ^ (-fracDigits)` (e.g. `3.0` is `.dec 30 1`). Only floats
whose `str` form is a plain decimal literal are representable, which
covers every value exercised here. -/
inductive PyNum
  | int : ℤ → PyNum
  | dec : ℤ → ℕ → PyNum
deriving DecidableEq

/-- The rational value of a `PyNum`. -/
def PyNum.toRat : PyNum → ℚ
  | .int z => (z : ℚ)
  | .dec m e => (m : ℚ) / ((10 : ℚ) ^ e)

/-- Decimal rendering of a natural number padded to at least `e + 1` digits. -/
def padDigits (n : ℕ) (e : ℕ) : String :=
  let s := toString n
  if s.length ≤ e then String.mk (List.replicate (e + 1 - s.length) '0') ++ s else s

/-- Python `str(...)` on a `PyNum`: ints print as themselves, and a
`.dec m e` float prints with `e` digits after the decimal point
(`str(3.0) = "3.0"`). -/
def pyStr : PyNum → String
  | .int z => toString z
  | .dec m e =>
    let sign := if m < 0 then "-" else ""
    let digits := padDigits m.natAbs e
    sign ++ (digits.take (digits.length - e)) ++ "." ++ (digits.drop (digits.length - e))

/-- Python `' '.join(flags)`. -/
def joinSpace : List String → String
  | [] => ""
  | [x] => x
  | x :: y :: rest => x ++ " " ++ joinSpace (y :: rest)

/-- Python `str(int(b))` for a bool flag. -/
def pyBoolInt (b : Bool) : String :=
  if b then "1" else "0"

/-- `Herb.AddTrajectoryFlags` (herb.py lines 156-207). Builds the
`or_owd_controller` flag token list, validates the force/torque options
when `stop_on_ft` is set (returning `none` for each `return None` in the
source), then appends a one-column group named by the space-joined flag
string and copies every waypoint with one zero column appended
(`waypoint[0:-1] = traj.GetWaypoint(i)` over `numpy.zeros(GetDOF())`). -/
def addTrajectoryFlags (traj : Traj) (stop_on_stall stop_on_ft : Bool)
    (force_direction : Option (List PyNum)) (force_magnitude : Option PyNum)
    (torque : Option (List PyNum)) : Option Traj :=
  let flags := ["or_owd_controller", "stop_on_stall", pyBoolInt stop_on_stall,
                "stop_on_ft", pyBoolInt stop_on_ft]
  let flagsChecked : Option (List String) :=
    if stop_on_ft then
      match force_direction with
      | none => none
      | some fd =>
        match force_magnitude with
        | none => none
        | some fm =>
          match torque with
          | none => none
          | some tq =>
            if fd.length ≠ 3 then none
            else if tq.length ≠ 3 then none
            else some (flags ++ ["force_direction"] ++ fd.map pyStr
                             ++ ["force_magnitude", pyStr fm]
                             ++ ["torque"] ++ tq.map pyStr)
    else some flags
  match flagsChecked with
  | none => none
  | some flags =>
    let flags_str := joinSpace flags
    let config_spec := traj.spec.AddGroup flags_str 1 "next"
    some { spec := config_spec
           waypoints := traj.waypoints.map (fun w => w ++ [0]) }

/-- Modelled from the spec: the wire-layout flag string of section 6
("the literal space-joined flag string", e.g.
"stop_on_stall 1 stop_on_ft 1 force_direction 0 0 1 force_magnitude 3.0
torque 0 0 0"), used to compare the specified group name against the one
the code builds. -/
def specFlagString (stop_on_stall stop_on_ft : Bool)
    (force_direction : List PyNum) (force_magnitude : PyNum)
    (torque : List PyNum) : String :=
  joinSpace (["stop_on_stall", pyBoolInt stop_on_stall,
              "stop_on_ft", pyBoolInt stop_on_ft]
    ++ (if stop_on_ft then
          ["force_direction"] ++ force_direction.map pyStr
            ++ ["force_magnitude", pyStr force_magnitude]
            ++ ["torque"] ++ torque.map pyStr
        else []))

/-- Sum of squared components, used to state (non-)unit-length of a
direction vector. -/
def sumSq (l : List PyNum) : ℚ :=
  (l.map (fun x => x.toRat * x.toRat)).sum

/-- A tiny concrete trajectory used by concrete-input theorems: a single
`joint_values` group of width 2 and two waypoints. -/
def testTraj : Traj :=
  { spec := ⟨[⟨"joint_values herb", 2, "linear"⟩]⟩
    waypoints := [[0, 0], [1, 1]] }

/-- The robot attributes that `Herb.ExecuteTrajectory` and
`Herb.DriveStraightUntilForce` read: the per-component simulation flags
set in `initialize_herb` (`__init__.py` lines 311-318), the time at
which each manipulator's controller first reports that it is done
(`none` when it keeps running forever), and the trajectory status each
manipulator's `GetTrajectoryStatus()` reports once polled after the
wait. -/
structure HerbState where
  head_sim : Bool
  left_arm_sim : Bool
  right_arm_sim : Bool
  segway_sim : Bool
  left_ft_sim : Bool
  right_ft_sim : Bool
  finishTime : Manip → Option ℚ
  trajStatus : Manip → TrajStatus

/-- The simulated/real mode of one manipulator, as the spec's
"simulated/real flag" of a touched manipulator (`left_arm_sim`,
`right_arm_sim`, `head_sim`). -/
def HerbState.manipSim (robot : HerbState) : Manip → Bool
  | .left_arm => robot.left_arm_sim
  | .right_arm => robot.right_arm_sim
  | .head => robot.head_sim

/-- Modelled from the spec: `util.WaitForControllers(controllers,
timeout)` — the `util` module is not part of the sources. Section 4.4:
`Immediate` (timeout 0) returns without waiting, `Bounded(d)` polls the
running set up to duration `d`, `Unbounded` (None) polls until all
report non-running. Its boolean result reports whether every controller
in the running set had finished when the wait ended: with a bounded
timeout `d` that is exactly "every controller finished within `d`", and
with no timeout the wait only ends once every controller finishes. -/
def waitForControllers (finishTimes : List (Option ℚ)) (timeout : Option ℚ) : Bool :=
  match timeout with
  | none => finishTimes.all (fun ft => ft.isSome)
  | some t => finishTimes.all (fun ft =>
      match ft with
      | some f => decide (f ≤ t)
      | none => false)

/-- The exceptions `Herb.ExecuteTrajectory` can raise
(`exceptions.SynchronizationException`, `exceptions.TrajectoryAborted`,
`exceptions.TrajectoryStalled`); the synchronization error carries the
three flags its message interpolates, the other two carry the
manipulator named by `GetName()`. -/
inductive ExecError
  | synchronization (head_sim right_arm_sim left_arm_sim : Bool)
  | trajectoryAborted (m : Manip)
  | trajectoryStalled (m : Manip)
deriving DecidableEq

/-- What `Herb.ExecuteTrajectory` observably did: the returned value or
raised exception, whether `robot.GetController().SetPath(traj)` ran (so
whether any controller received a command), and the set of manipulators
whose controllers the completion wait polled. -/
structure ExecResult where
  outcome : Except ExecError Unit
  dispatched : Bool
  runningSet : List Manip

/-- The guard of herb.py line 230:
`needs_synchronization and any_sim and not all_sim`, where
`any_sim`/`all_sim` (lines 227-228) range over the three fixed flags
`head_sim`, `right_arm_sim`, `left_arm_sim` — not over the touched
manipulators. -/
def execSyncGuard (robot : HerbState) (active_manipulators : List Manip) : Bool :=
  let needs_synchronization := decide (active_manipulators.length > 1)
  let any_sim := robot.head_sim || robot.right_arm_sim || robot.left_arm_sim
  let all_sim := robot.head_sim && robot.right_arm_sim && robot.left_arm_sim
  needs_synchronization && any_sim && !all_sim

/-- herb.py lines 245-248: `running_manipulators` is
`set(robot.manipulators)` when synchronizing and
`set(active_manipulators)` otherwise; a Python `set` is modelled as a
duplicate-free list (the claims compare it as a `Finset`). -/
def execRunningSet (_robot : HerbState) (active_manipulators : List Manip) : List Manip :=
  let needs_synchronization := decide (active_manipulators.length > 1)
  if needs_synchronization then herbManipulators
  else active_manipulators.dedup

/-- herb.py lines 263-268: walk the active manipulators in order; the
first whose status is `aborted` raises `TrajectoryAborted` naming it,
else the first whose status is `stalled` raises `TrajectoryStalled`. -/
def checkStatuses (robot : HerbState) : List Manip → Except ExecError Unit
  | [] => .ok ()
  | m :: rest =>
    match robot.trajStatus m with
    | .aborted => .error (.trajectoryAborted m)
    | .stalled => .error (.trajectoryStalled m)
    | _ => checkStatuses robot rest

/-- `Herb.ExecuteTrajectory` (herb.py lines 209-270), dispatch and
supervision control flow. `active_manipulators` stands for
`util.GetTrajectoryManipulators(robot, traj)` (the `util` module is not
part of the sources; per the spec it is the set of manipulators touched
by the trajectory's configuration spec), passed in directly so claims
can quantify over it. The blend/retime stage (lines 237-242, modelled
separately by `retimeTrajectory`) transforms only the trajectory
payload, which none of the dispatch-supervision claims depend on, so
the returned trajectory is elided to `Unit`. After the sync guard the
statuses are cleared, `SetPath` dispatches, the wait runs over the
running set's controllers, and statuses are polled only when the wait
reported completion (`if is_done:` line 261). -/
def executeTrajectory (robot : HerbState) (active_manipulators : List Manip)
    (timeout : Option ℚ) : ExecResult :=
  if execSyncGuard robot active_manipulators then
    { outcome := .error (.synchronization robot.head_sim robot.right_arm_sim
                           robot.left_arm_sim)
      dispatched := false
      runningSet := [] }
  else
    let running := execRunningSet robot active_manipulators
    let is_done := waitForControllers (running.map robot.finishTime) timeout
    { outcome := if is_done then checkStatuses robot active_manipulators else .ok ()
      dispatched := true
      runningSet := running }

/-- One serialized retimer parameter from herb.py lines 118-128. The
textual space-joined serialization handed to
`PlannerParameters.SetExtraParameters` is kept at token level;
`cancel_on_ft` carries `force_threshold = force_magnitude *
numpy.array(force_direction)` and the torque threshold as rational
vectors. -/
inductive RetimeParam
  | max_jerk (v : PyNum)
  | cancel_on_stall
  | cancel_on_ft (force_threshold torque_threshold : List ℚ)
  | synchronize
deriving DecidableEq

/-- Which retimer `Herb.RetimeTrajectory` ended up using: the plain
default OpenRAVE retimer (`openravepy.planningutils.RetimeTrajectory`,
invoked with no extra parameters at all), or the jerk-limited
MacTrajectory retimer with its serialized parameters. -/
inductive RetimeMethod
  | fallbackDefault
  | macRetimer (params : List RetimeParam)
deriving DecidableEq

/-- Observable result of `Herb.RetimeTrajectory`: whether the
`logger.warning` fallback message was emitted, which retimer ran, and
the trajectory returned. -/
structure RetimeResult where
  warnedFallback : Bool
  method : RetimeMethod
  outTraj : Traj
deriving DecidableEq

/-- The `path_config_spec` built in herb.py lines 100-106: deltatime,
the joint-values group copied from the input, first and second
derivative groups of the same width (derivative-group naming
abbreviated), and the one-column `owd_blend_radius` group. -/
def macPathSpec (angle_group : SpecGroup) : ConfigSpec :=
  ⟨[⟨"deltatime", 1, ""⟩,
    ⟨angle_group.name, angle_group.dof, ""⟩,
    ⟨"joint_velocities", angle_group.dof, ""⟩,
    ⟨"joint_accelerations", angle_group.dof, ""⟩,
    ⟨"owd_blend_radius", 1, "next"⟩]⟩

/-- `Herb.RetimeTrajectory` (herb.py lines 80-137). `defaultRetime`
stands for the external collaborator
`openravepy.planningutils.RetimeTrajectory`, which retimes the
trajectory in place with no jerk limiting and no extra flags;
`mac_retimer` is `robot.mac_retimer` (`none` when `RaveCreatePlanner`
could not create a `MacRetimer`, `__init__.py` lines 188-190). On the
fallback branch (lines 89-94) the function warns, runs the default
retimer, and returns its result. On the MacTrajectory branch it looks
up the `joint_values` group (`none` models the raised
`openrave_exception` when it is missing), serializes the planner
parameters exactly in source order, and returns the retimed
MacTrajectory (waypoint rows copied; `none` also models the `TypeError`
from `force_magnitude * numpy.array(force_direction)` or
`map(str, torque)` when `stop_on_ft` is set with a missing value). -/
def retimeTrajectory (defaultRetime : Traj → Traj) (mac_retimer : Option Unit)
    (traj : Traj) (max_jerk : PyNum) (synchronize stop_on_stall stop_on_ft : Bool)
    (force_direction : Option (List PyNum)) (force_magnitude : Option PyNum)
    (torque : Option (List PyNum)) : Option RetimeResult :=
  match mac_retimer with
  | none =>
    some { warnedFallback := true
           method := .fallbackDefault
           outTraj := defaultRetime traj }
  | some _ =>
    match traj.spec.groups.find? (fun g => g.name.startsWith "joint_values") with
    | none => none
    | some angle_group =>
      let params := [RetimeParam.max_jerk max_jerk]
      let params := params ++ (if stop_on_stall then [RetimeParam.cancel_on_stall] else [])
      let ftParams : Option (List RetimeParam) :=
        if stop_on_ft then
          match force_magnitude, force_direction, torque with
          | some fm, some fd, some tq =>
            some [RetimeParam.cancel_on_ft (fd.map (fun x => fm.toRat * x.toRat))
                    (tq.map PyNum.toRat)]
          | _, _, _ => none
        else some []
      match ftParams with
      | none => none
      | some fts =>
        let params := params ++ fts
          ++ (if synchronize then [RetimeParam.synchronize] else [])
        some { warnedFallback := false
               method := .macRetimer params
               outTraj := { spec := macPathSpec angle_group
                            waypoints := traj.waypoints } }

/-- 3-vectors over the reals, as handled by the numpy code. -/
abbrev Vec3 := Fin 3 → ℝ

/-- `numpy.linalg.norm` of a 3-vector. -/
noncomputable def norm3 (v : Vec3) : ℝ :=
  Real.sqrt (v 0 ^ 2 + v 1 ^ 2 + v 2 ^ 2)

/-- Componentwise vector difference. -/
def sub3 (a b : Vec3) : Vec3 := fun i => a i - b i

/-- `numpy.dot` on 3-vectors. -/
def dot3 (a b : Vec3) : ℝ := a 0 * b 0 + a 1 * b 1 + a 2 * b 2

/-- herb.py lines 327-328:
`direction = numpy.array(direction, dtype='float');
direction /= numpy.linalg.norm(direction)`. -/
noncomputable def normalize3 (v : Vec3) : Vec3 := fun i => v i / norm3 v

/-- `numpy.arctan2 y x`, embedded as the argument of the complex number
`x + y*i` (both follow the (-pi, pi] convention). -/
noncomputable def arctan2 (y x : ℝ) : ℝ := Complex.arg ⟨x, y⟩

/-- The two arms whose force/torque sensors `DriveStraightUntilForce`
can monitor (`robot.left_arm`, `robot.right_arm`). -/
inductive Arm
  | left
  | right
deriving DecidableEq

/-- The world as `DriveStraightUntilForce` observes it: the rotation
entries `[0,0]`/`[1,0]` and translation column of the transform read
before rotating (herb.py line 340), the tare readings
(`GetForceTorque`, lines 347-350), and per-loop-iteration sensor
readings, positions, and clock values. -/
structure DriveEnv where
  initPose00 : ℝ
  initPose10 : ℝ
  initPos : Vec3
  tareForce : Arm → Vec3
  forceAt : ℕ → Arm → Vec3
  posAt : ℕ → Vec3
  timeAt : ℕ → ℝ
  startTime : ℝ

/-- Commands sent to `robot.segway_controller.SendCommand` during a
force-guarded drive. The streamed command is the formatted string
`'DriveInstantaneous {0:f} 0 0'.format(velocity)` (line 376), whose
`{0:f}` part always prints six decimal places, so its text never
coincides with the fixed cleanup literal `'DriveInstantaneous 0 0 0'`
(line 379), kept as the separate constructor `stop`. -/
inductive SegwayCommand
  | rotate (angle : ℝ)
  | driveInstantaneous (velocity : ℝ)
  | stop

/-- Whether a command is the zero-velocity cleanup literal. -/
def SegwayCommand.isStop : SegwayCommand → Bool
  | .stop => true
  | _ => false

/-- A propagating Python exception. -/
inductive PyError
  | nameError (name : String)
deriving DecidableEq

/-- How a call to `DriveStraightUntilForce` ends: the early `return`
for a simulated Segway (line 320), the raised exception for simulated
sensors (line 323), `return True` on felt force, `return False` on the
distance limit, a propagating error, or — with the recursion fuel
exhausted — the streaming loop still running (no exit has happened). -/
inductive DriveOutcome
  | retNone
  | raisedSensorSim
  | retTrue
  | retFalse
  | raised (e : PyError)
  | stillRunning
deriving DecidableEq

/-- Every name visible where herb.py line 372 executes: the function's
parameters and assigned locals, then the module-level names of herb.py
(its imports, `logger`, and the class). The read name `star_time` is
not among them — the assigned local is `start_time` — which is what
makes line 372 raise `NameError`. -/
def driveScopeNames : List String :=
  ["robot", "direction", "velocity", "force_threshold", "max_distance",
   "timeout", "left_arm", "right_arm", "env", "manipulators", "manipulator",
   "robot_pose", "robot_angle", "desired_angle", "initial_force", "force",
   "torque", "felt_force", "start_time", "start_pos", "current_pos",
   "distance", "time_now",
   "logging", "numpy", "openravepy", "rospy", "time", "herbpy", "exceptions",
   "planner", "util", "Deprecated", "logger", "Herb"]

/-- The `for manipulator in manipulators` force check of herb.py lines
358-361: walk the monitored arms in order and report whether any
reading deviates from its tare baseline by more than
`force_threshold`. -/
noncomputable def forceFelt (env : DriveEnv) (initial_force : Arm → Vec3)
    (force_threshold : ℝ) (k : ℕ) : List Arm → Bool
  | [] => false
  | a :: rest =>
    if norm3 (sub3 (initial_force a) (env.forceAt k a)) > force_threshold then true
    else forceFelt env initial_force force_threshold k rest

/-- The `while True` streaming loop of herb.py lines 356-376, one
iteration per fuel unit (`k` counts iterations to index the
environment). Each pass: (a) force check — `return True`; (b) distance
check against `max_distance` — `return False`; (c) the timeout check,
which evaluates `time_now - star_time > timeout` whenever `timeout` is
not `None` and therefore raises `NameError` (see `driveScopeNames`);
(d) stream one `DriveInstantaneous` command and continue. Commands are
returned in emission order. -/
noncomputable def driveLoop (env : DriveEnv) (manipulators : List Arm)
    (direction : Vec3) (start_pos : Vec3) (velocity force_threshold : ℝ)
    (max_distance timeout : Option ℝ) :
    ℕ → ℕ → DriveOutcome × List SegwayCommand
  | 0, _ => (.stillRunning, [])
  | fuel + 1, k =>
    if forceFelt env env.tareForce force_threshold k manipulators then
      (.retTrue, [])
    else
      let current_pos := env.posAt k
      let distance := dot3 (sub3 current_pos start_pos) direction
      let hitMax : Bool :=
        match max_distance with
        | some md => decide (distance ≥ md)
        | none => false
      if hitMax then (.retFalse, [])
      else
        let _time_now := env.timeAt k
        match timeout with
        | some _ => (.raised (.nameError "star_time"), [])
        | none =>
          let next := driveLoop env manipulators direction start_pos velocity
            force_threshold max_distance none fuel (k + 1)
          (next.1, .driveInstantaneous velocity :: next.2)

/-- `Herb.DriveStraightUntilForce` (herb.py lines 301-379). The
precondition checks run first (simulated Segway: warn and return
`None`; a monitored simulated force/torque sensor: raise). Then the
direction is normalized, the monitored arm list built (left first),
the base rotated by `desired_angle - robot_angle` (RotateSegway, line
423: a `Rotate` command, since the Segway is not simulated here), the
sensors tared, and the streaming loop entered inside `try`/`finally`:
the `finally` sends the zero-velocity stop command whenever the `try`
block exits (return or raise); `stillRunning` means the loop has not
exited, so the `finally` has not run yet. -/
noncomputable def driveStraightUntilForce (robot : HerbState) (env : DriveEnv)
    (direction : Vec3) (velocity force_threshold : ℝ)
    (max_distance timeout : Option ℝ) (left_arm right_arm : Bool)
    (fuel : ℕ) : DriveOutcome × List SegwayCommand :=
  if robot.segway_sim then
    (.retNone, [])
  else if (robot.left_ft_sim && left_arm) || (robot.right_ft_sim && right_arm) then
    (.raisedSensorSim, [])
  else
    let dir := normalize3 direction
    let manipulators := (if left_arm then [Arm.left] else [])
      ++ (if right_arm then [Arm.right] else [])
    let robot_angle := arctan2 env.initPose10 env.initPose00
    let desired_angle := arctan2 (dir 1) (dir 0)
    let start_pos := env.initPos
    let run := driveLoop env manipulators dir start_pos velocity force_threshold
      max_distance timeout fuel 0
    if run.1 = .stillRunning then
      (run.1, SegwayCommand.rotate (desired_angle - robot_angle) :: run.2)
    else
      (run.1, SegwayCommand.rotate (desired_angle - robot_angle)
        :: (run.2 ++ [SegwayCommand.stop]))

theorem joinSpace_cons_cons (x y : String) (l : List String) :
    joinSpace (x :: y :: l) = x ++ " " ++ joinSpace (y :: l) := rfl

/-- C5 counterexample: with `stop_on_ft` set, a complete, 3-dimensional
but non-unit-length `force_direction` of `[2, 0, 0]` (squared length 4)
is accepted — `AddTrajectoryFlags` returns an annotated trajectory —
although the claim says the call must fail whenever `force_direction`
is not unit length. -/
theorem c5_unit_length_not_checked :
    sumSq [PyNum.int 2, PyNum.int 0, PyNum.int 0] ≠ 1 ∧
    (addTrajectoryFlags testTraj true true
        (some [PyNum.int 2, PyNum.int 0, PyNum.int 0]) (some (PyNum.dec 10 1))
        (some [PyNum.int 0, PyNum.int 0, PyNum.int 0])).isSome = true := by
  constructor
  · norm_num [sumSq, PyNum.toRat]
  · rfl

/-- C5 amended: with `stop_on_ft` set, `AddTrajectoryFlags` fails
(returns no result) exactly when `force_direction`, `force_magnitude`,
or `torque` is missing, or `force_direction` or `torque` is not
three-dimensional; unit length of `force_direction` is not
validated. -/
theorem c5_amended_ft_validation (traj : Traj) (stop_on_stall : Bool)
    (fd : Option (List PyNum)) (fm : Option PyNum) (tq : Option (List PyNum)) :
    addTrajectoryFlags traj stop_on_stall true fd fm tq = none ↔
      fd = none ∨ fm = none ∨ tq = none ∨
      (∃ l, fd = some l ∧ l.length ≠ 3) ∨ (∃ l, tq = some l ∧ l.length ≠ 3) := by
  cases fd with
  | none => simp [addTrajectoryFlags]
  | some fdl =>
    cases fm with
    | none => simp [addTrajectoryFlags]
    | some fml =>
      cases tq with
      | none => simp [addTrajectoryFlags]
      | some tql =>
        by_cases hfd : fdl.length = 3 <;> by_cases htq : tql.length = 3 <;>
          simp [addTrajectoryFlags, hfd, htq]

/-- C7 counterexample: for the default annotation
(`stop_on_stall=True`, `stop_on_ft=False`) the added group's name is
"or_owd_controller stop_on_stall 1 stop_on_ft 0", which is not the
bare space-joined flag string of the wire-layout specification — the
name carries the extra leading token `or_owd_controller`, so the claim
"with no other tokens in the name" fails. -/
theorem c7_group_name_has_extra_token :
    ((addTrajectoryFlags testTraj true false none none none).map
        (fun t => t.spec.groups.map SpecGroup.name)) =
      some ["joint_values herb",
            "or_owd_controller stop_on_stall 1 stop_on_ft 0"] ∧
    "or_owd_controller stop_on_stall 1 stop_on_ft 0" ≠
      specFlagString true false [] (PyNum.int 0) [] := by
  constructor
  · rfl
  · decide

/-- C7 amended: every successful annotation adds exactly one one-column
group after the existing groups, appends one zero column to every
waypoint, and the added group's name is the literal token
`or_owd_controller` followed by a space and then the space-joined flag
string in the wire-layout specification's form (built from the same
options). -/
theorem c7_amended_group_name (traj : Traj) (stop_on_stall stop_on_ft : Bool)
    (fd : Option (List PyNum)) (fm : Option PyNum) (tq : Option (List PyNum))
    (out : Traj) (h : addTrajectoryFlags traj stop_on_stall stop_on_ft fd fm tq = some out) :
    out.waypoints = traj.waypoints.map (fun w => w ++ [0]) ∧
    ∃ flagTail,
      out.spec.groups = traj.spec.groups ++ [⟨"or_owd_controller" ++ " " ++ flagTail, 1, "next"⟩] ∧
      ((stop_on_ft = false ∧
          flagTail = specFlagString stop_on_stall false [] (PyNum.int 0) []) ∨
        (∃ fdl fml tql, stop_on_ft = true ∧ fd = some fdl ∧ fm = some fml ∧ tq = some tql ∧
          flagTail = specFlagString stop_on_stall true fdl fml tql)) := by
  cases stop_on_ft with
  | false =>
    simp only [addTrajectoryFlags, Bool.false_eq_true, if_false] at h
    cases h
    refine ⟨rfl, joinSpace ["stop_on_stall", pyBoolInt stop_on_stall, "stop_on_ft", pyBoolInt false], ?_, ?_⟩
    · rfl
    · exact Or.inl ⟨rfl, by simp [specFlagString]⟩
  | true =>
    cases fd with
    | none => simp [addTrajectoryFlags] at h
    | some fdl =>
      cases fm with
      | none => simp [addTrajectoryFlags] at h
      | some fml =>
        cases tq with
        | none => simp [addTrajectoryFlags] at h
        | some tql =>
          by_cases hfd : fdl.length = 3
          · by_cases htq : tql.length = 3
            · simp only [addTrajectoryFlags, if_true, hfd, htq, ne_eq,
                not_true_eq_false, if_false] at h
              cases h
              refine ⟨rfl, _, ?_, Or.inr ⟨fdl, fml, tql, rfl, rfl, rfl, rfl, rfl⟩⟩
              simp [specFlagString, ConfigSpec.AddGroup, joinSpace_cons_cons]
            · simp [addTrajectoryFlags, hfd, htq] at h
          · simp [addTrajectoryFlags, hfd] at h

/-- Concrete robot for the C1 counterexample: the head is simulated,
both arms are real, and the trajectory touches only the two arms. -/
def c1Robot : HerbState :=
  { head_sim := true, left_arm_sim := false, right_arm_sim := false
    segway_sim := false, left_ft_sim := false, right_ft_sim := false
    finishTime := fun _ => some 0, trajStatus := fun _ => .done }

/-- C1 counterexample: a trajectory touching only the two real arms —
so all touched manipulators share the same simulated/real mode — is
still rejected with a SynchronizationError before dispatch, because the
untouched simulated head makes `any_sim and not all_sim` true. An
untouched manipulator can therefore cause the error, contradicting the
claim that only touched manipulators' modes are validated. -/
theorem c1_untouched_head_causes_error :
    (∀ m ∈ [Manip.right_arm, Manip.left_arm], c1Robot.manipSim m = false) ∧
    Manip.head ∉ [Manip.right_arm, Manip.left_arm] ∧
    (executeTrajectory c1Robot [.right_arm, .left_arm] none).outcome =
      .error (.synchronization true false false) ∧
    (executeTrajectory c1Robot [.right_arm, .left_arm] none).dispatched = false := by
  refine ⟨by decide, by decide, rfl, rfl⟩

/-- C1 amended: when more than one manipulator is touched, the
coordinator validates the simulated/real modes of all three
manipulators (`head_sim`, `right_arm_sim`, `left_arm_sim`), touched or
not: it raises SynchronizationError before any controller receives a
command exactly when those three flags are neither all real nor all
simulated. -/
theorem c1_amended_sync_guard (robot : HerbState) (touched : List Manip)
    (timeout : Option ℚ) :
    ((executeTrajectory robot touched timeout).outcome =
        .error (.synchronization robot.head_sim robot.right_arm_sim robot.left_arm_sim) ∧
      (executeTrajectory robot touched timeout).dispatched = false) ↔
    (1 < touched.length ∧
      (robot.head_sim || robot.right_arm_sim || robot.left_arm_sim) = true ∧
      (robot.head_sim && robot.right_arm_sim && robot.left_arm_sim) = false) := by
  unfold executeTrajectory execSyncGuard
  by_cases hguard : (decide (touched.length > 1) &&
      (robot.head_sim || robot.right_arm_sim || robot.left_arm_sim) &&
      !(robot.head_sim && robot.right_arm_sim && robot.left_arm_sim)) = true
  · simp only [hguard, if_true]
    simp only [Bool.and_eq_true, Bool.not_eq_true', decide_eq_true_eq] at hguard
    simp [hguard.1.1, hguard.1.2, hguard.2]
  · simp only [hguard, if_false]
    constructor
    · rintro ⟨-, h⟩
      cases h
    · rintro ⟨h1, h2, h3⟩
      exact absurd (by simp [h1, h2, h3]) hguard

/-- Walking the status list: when some manipulator in the list is
aborted or stalled, `checkStatuses` raises `TrajectoryAborted` naming
an aborted member or `TrajectoryStalled` naming a stalled member —
never `.ok`. -/
theorem checkStatuses_fault (robot : HerbState) (l : List Manip)
    (h : ∃ m ∈ l, robot.trajStatus m = .aborted ∨ robot.trajStatus m = .stalled) :
    (∃ m ∈ l, robot.trajStatus m = .aborted ∧
        checkStatuses robot l = .error (.trajectoryAborted m)) ∨
    (∃ m ∈ l, robot.trajStatus m = .stalled ∧
        checkStatuses robot l = .error (.trajectoryStalled m)) := by
  induction l with
  | nil => simp at h
  | cons m rest ih =>
    cases hst : robot.trajStatus m with
    | aborted =>
      exact Or.inl ⟨m, List.mem_cons_self m rest, hst, by simp [checkStatuses, hst]⟩
    | stalled =>
      exact Or.inr ⟨m, List.mem_cons_self m rest, hst, by simp [checkStatuses, hst]⟩
    | idle =>
      rcases h with ⟨m', hm', hfault⟩
      rcases List.mem_cons.mp hm' with rfl | hrest
      · rw [hst] at hfault; rcases hfault with h | h <;> cases h
      · rcases ih ⟨m', hrest, hfault⟩ with ⟨m'', hm'', hs, he⟩ | ⟨m'', hm'', hs, he⟩
        · exact Or.inl ⟨m'', List.mem_cons_of_mem m hm'', hs,
            by simpa [checkStatuses, hst] using he⟩
        · exact Or.inr ⟨m'', List.mem_cons_of_mem m hm'', hs,
            by simpa [checkStatuses, hst] using he⟩
    | running =>
      rcases h with ⟨m', hm', hfault⟩
      rcases List.mem_cons.mp hm' with rfl | hrest
      · rw [hst] at hfault; rcases hfault with h | h <;> cases h
      · rcases ih ⟨m', hrest, hfault⟩ with ⟨m'', hm'', hs, he⟩ | ⟨m'', hm'', hs, he⟩
        · exact Or.inl ⟨m'', List.mem_cons_of_mem m hm'', hs,
            by simpa [checkStatuses, hst] using he⟩
        · exact Or.inr ⟨m'', List.mem_cons_of_mem m hm'', hs,
            by simpa [checkStatuses, hst] using he⟩
    | done =>
      rcases h with ⟨m', hm', hfault⟩
      rcases List.mem_cons.mp hm' with rfl | hrest
      · rw [hst] at hfault; rcases hfault with h | h <;> cases h
      · rcases ih ⟨m', hrest, hfault⟩ with ⟨m'', hm'', hs, he⟩ | ⟨m'', hm'', hs, he⟩
        · exact Or.inl ⟨m'', List.mem_cons_of_mem m hm'', hs,
            by simpa [checkStatuses, hst] using he⟩
        · exact Or.inr ⟨m'', List.mem_cons_of_mem m hm'', hs,
            by simpa [checkStatuses, hst] using he⟩

/-- Concrete robot for the C3 counterexample: its controller never
reports done, and its manipulators all report `aborted` when polled. -/
def c3Robot : HerbState :=
  { head_sim := false, left_arm_sim := false, right_arm_sim := false
    segway_sim := false, left_ft_sim := false, right_ft_sim := false
    finishTime := fun _ => none, trajStatus := fun _ => .aborted }

/-- C3 counterexample: with a bounded timeout of 1 that expires while
the touched manipulator's controller is still running, the execution
returns as a silent success (`.ok`) even though that manipulator's
trajectory status is `aborted` — the `if is_done:` guard of herb.py
line 261 skips the status poll, so no TrajectoryAborted is raised. -/
theorem c3_bounded_timeout_masks_abort :
    c3Robot.trajStatus .left_arm = .aborted ∧
    (executeTrajectory c3Robot [.left_arm] (some 1)).dispatched = true ∧
    (executeTrajectory c3Robot [.left_arm] (some 1)).outcome = .ok () := by
  refine ⟨rfl, rfl, rfl⟩

/-- C3 amended: the coordinator polls the touched manipulators'
statuses only when the completion wait reports that every controller in
the running set finished; in that case, if any touched manipulator
reports aborted or stalled, it raises TrajectoryAborted naming an
aborted manipulator or TrajectoryStalled naming a stalled one, never a
silent success. When a bounded wait expires first, statuses are not
polled and the call returns successfully. -/
theorem c3_amended_fault_surfaced (robot : HerbState) (touched : List Manip)
    (timeout : Option ℚ)
    (hguard : execSyncGuard robot touched = false)
    (hdone : waitForControllers ((execRunningSet robot touched).map robot.finishTime)
        timeout = true)
    (hfault : ∃ m ∈ touched,
        robot.trajStatus m = .aborted ∨ robot.trajStatus m = .stalled) :
    (∃ m ∈ touched, robot.trajStatus m = .aborted ∧
        (executeTrajectory robot touched timeout).outcome =
          .error (.trajectoryAborted m)) ∨
    (∃ m ∈ touched, robot.trajStatus m = .stalled ∧
        (executeTrajectory robot touched timeout).outcome =
          .error (.trajectoryStalled m)) := by
  have hout : (executeTrajectory robot touched timeout).outcome =
      checkStatuses robot touched := by
    unfold executeTrajectory
    rw [hguard]
    simp only [Bool.false_eq_true, if_false]
    rw [hdone]
    simp
  rcases checkStatuses_fault robot touched hfault with ⟨m, hm, hs, he⟩ | ⟨m, hm, hs, he⟩
  · exact Or.inl ⟨m, hm, hs, by rw [hout]; exact he⟩
  · exact Or.inr ⟨m, hm, hs, by rw [hout]; exact he⟩

/-- Concrete robot for the C3 witness: controllers finish instantly and
the manipulators report `aborted`. -/
def c3DoneRobot : HerbState :=
  { head_sim := false, left_arm_sim := false, right_arm_sim := false
    segway_sim := false, left_ft_sim := false, right_ft_sim := false
    finishTime := fun _ => some 0, trajStatus := fun _ => .aborted }

/-- C3 witness: an unbounded wait over a finishing controller with an
aborted status ends in TrajectoryAborted naming the manipulator. -/
theorem c3_amended_fault_surfaced_witness :
    (∃ m ∈ [Manip.left_arm], c3DoneRobot.trajStatus m = .aborted ∧
        (executeTrajectory c3DoneRobot [Manip.left_arm] none).outcome =
          .error (.trajectoryAborted m)) ∨
    (∃ m ∈ [Manip.left_arm], c3DoneRobot.trajStatus m = .stalled ∧
        (executeTrajectory c3DoneRobot [Manip.left_arm] none).outcome =
          .error (.trajectoryStalled m)) :=
  c3_amended_fault_surfaced c3DoneRobot [Manip.left_arm] none rfl rfl
    ⟨Manip.left_arm, List.mem_cons_self _ _, Or.inl rfl⟩

theorem listDedupToFinset {α : Type} [DecidableEq α] (l : List α) :
    l.dedup.toFinset = l.toFinset := by
  ext a
  simp [List.mem_toFinset, List.mem_dedup]

/-- Concrete robot for the C6 counterexample: everything simulated, so
`all_sim` holds and a synchronized dispatch passes the guard. -/
def c6Robot : HerbState :=
  { head_sim := true, left_arm_sim := true, right_arm_sim := true
    segway_sim := true, left_ft_sim := true, right_ft_sim := true
    finishTime := fun _ => some 0, trajStatus := fun _ => .done }

/-- C6 counterexample: a synchronized dispatch touching only the two
arms polls the controllers of all three of `robot.manipulators` — the
untouched head's controller included — so the running set is strictly
larger than the union of the touched manipulators' controllers. -/
theorem c6_running_set_not_touched_union :
    (executeTrajectory c6Robot [.left_arm, .right_arm] none).dispatched = true ∧
    (executeTrajectory c6Robot [.left_arm, .right_arm] none).runningSet.toFinset =
      herbManipulators.toFinset ∧
    (executeTrajectory c6Robot [.left_arm, .right_arm] none).runningSet.toFinset ≠
      ([Manip.left_arm, Manip.right_arm] : List Manip).toFinset := by
  refine ⟨rfl, rfl, by decide⟩

/-- C6 amended: whenever dispatch happens, the set of controllers
polled for completion is the set of all of `robot.manipulators`'
controllers for a synchronized dispatch (more than one touched
manipulator), and exactly the touched (active) manipulators'
controllers otherwise. -/
theorem c6_amended_running_set (robot : HerbState) (touched : List Manip)
    (timeout : Option ℚ)
    (h : (executeTrajectory robot touched timeout).dispatched = true) :
    (executeTrajectory robot touched timeout).runningSet.toFinset =
      (if 1 < touched.length then herbManipulators.toFinset else touched.toFinset) := by
  unfold executeTrajectory at h ⊢
  by_cases hguard : execSyncGuard robot touched = true
  · rw [hguard] at h
    cases h
  · rw [Bool.not_eq_true] at hguard
    rw [hguard]
    simp only [Bool.false_eq_true, if_false]
    unfold execRunningSet
    by_cases hlen : 1 < touched.length
    · simp [hlen]
    · simp [hlen, listDedupToFinset]

/-- C6 witness: for an unsynchronized single-arm dispatch the running
set is exactly the touched manipulator's controller. -/
theorem c6_amended_running_set_witness :
    (executeTrajectory c6Robot [Manip.left_arm] none).runningSet.toFinset =
      (if 1 < ([Manip.left_arm] : List Manip).length then herbManipulators.toFinset
        else ([Manip.left_arm] : List Manip).toFinset) :=
  c6_amended_running_set c6Robot [Manip.left_arm] none rfl

/-- The annotated trajectory produced from `testTraj` by the default
options, used as the C7 witness input. -/
def c7OutTraj : Traj :=
  { spec := ⟨[⟨"joint_values herb", 2, "linear"⟩,
              ⟨"or_owd_controller stop_on_stall 1 stop_on_ft 0", 1, "next"⟩]⟩
    waypoints := [[0, 0, 0], [1, 1, 0]] }

/-- C7 witness: the default annotation of `testTraj` appends the
one-column flag group and one zero column per waypoint. -/
theorem c7_amended_group_name_witness :
    c7OutTraj.waypoints = testTraj.waypoints.map (fun w => w ++ [0]) ∧
    ∃ flagTail,
      c7OutTraj.spec.groups =
        testTraj.spec.groups ++ [⟨"or_owd_controller" ++ " " ++ flagTail, 1, "next"⟩] ∧
      ((false = false ∧ flagTail = specFlagString true false [] (PyNum.int 0) []) ∨
        (∃ fdl fml tql, false = true ∧ (none : Option (List PyNum)) = some fdl ∧
          (none : Option PyNum) = some fml ∧ (none : Option (List PyNum)) = some tql ∧
          flagTail = specFlagString true true fdl fml tql)) :=
  c7_amended_group_name testTraj true false none none none c7OutTraj rfl

/-- C8: when `robot.mac_retimer` is `None`, `RetimeTrajectory` does not
abort: it emits the fallback warning, runs the plain default retimer —
whose invocation carries no jerk limit and no
stall/force/synchronization flags — and still returns the retimed
trajectory that the default retimer produced. -/
theorem c8_retimer_fallback (defaultRetime : Traj → Traj) (traj : Traj)
    (max_jerk : PyNum) (synchronize stop_on_stall stop_on_ft : Bool)
    (fd : Option (List PyNum)) (fm : Option PyNum) (tq : Option (List PyNum)) :
    retimeTrajectory defaultRetime none traj max_jerk synchronize stop_on_stall
        stop_on_ft fd fm tq =
      some { warnedFallback := true
             method := .fallbackDefault
             outTraj := defaultRetime traj } := rfl

theorem driveLoop_stop_free (env : DriveEnv) (manips : List Arm) (dir sp : Vec3)
    (v fth : ℝ) (md tmo : Option ℝ) :
    ∀ fuel k,
      ((driveLoop env manips dir sp v fth md tmo fuel k).2.countP
        SegwayCommand.isStop) = 0
  | 0, _ => by simp [driveLoop]
  | fuel + 1, k => by
    simp only [driveLoop]
    split
    · simp
    · split
      · simp
      · cases tmo with
        | some t => simp
        | none =>
          simp only [List.countP_cons, SegwayCommand.isStop, Bool.false_eq_true,
            if_false, add_zero]
          exact driveLoop_stop_free env manips dir sp v fth md none fuel (k + 1)

/-- C2: whenever a force-guarded drive on a non-simulated base passes
the sensor precondition and its streaming loop exits — by felt force,
by the distance limit, or by a propagating error such as the timeout
check's NameError — the zero-velocity stop command appears exactly
once in the command stream, and it is the final command sent, so the
base is always left commanded to stop. -/
theorem c2_stop_exactly_once (robot : HerbState) (env : DriveEnv)
    (direction : Vec3) (velocity fth : ℝ) (md tmo : Option ℝ)
    (la ra : Bool) (fuel : ℕ)
    (hbase : robot.segway_sim = false)
    (hsensors : ((robot.left_ft_sim && la) || (robot.right_ft_sim && ra)) = false)
    (hexit : (driveStraightUntilForce robot env direction velocity fth md tmo
        la ra fuel).1 ≠ .stillRunning) :
    ((driveStraightUntilForce robot env direction velocity fth md tmo
        la ra fuel).2.countP SegwayCommand.isStop = 1) ∧
    ((driveStraightUntilForce robot env direction velocity fth md tmo
        la ra fuel).2.getLast? = some SegwayCommand.stop) := by
  unfold driveStraightUntilForce at hexit ⊢
  rw [hbase, hsensors] at hexit ⊢
  simp only [Bool.false_eq_true, if_false] at hexit ⊢
  by_cases hrun : (driveLoop env
      ((if la then [Arm.left] else []) ++ (if ra then [Arm.right] else []))
      (normalize3 direction) env.initPos velocity fth md tmo fuel 0).1 =
      DriveOutcome.stillRunning
  · rw [if_pos hrun] at hexit
    exact absurd hrun hexit
  · rw [if_neg hrun]
    constructor
    · simp [List.countP_cons, List.countP_append, SegwayCommand.isStop,
        driveLoop_stop_free]
    · rw [show SegwayCommand.rotate
          (arctan2 (normalize3 direction 1) (normalize3 direction 0) -
            arctan2 env.initPose10 env.initPose00) ::
          ((driveLoop env
            ((if la then [Arm.left] else []) ++ (if ra then [Arm.right] else []))
            (normalize3 direction) env.initPos velocity fth md tmo fuel 0).2 ++
            [SegwayCommand.stop]) =
          (SegwayCommand.rotate
            (arctan2 (normalize3 direction 1) (normalize3 direction 0) -
              arctan2 env.initPose10 env.initPose00) ::
            (driveLoop env
              ((if la then [Arm.left] else []) ++ (if ra then [Arm.right] else []))
              (normalize3 direction) env.initPos velocity fth md tmo fuel 0).2) ++
            [SegwayCommand.stop] from rfl]
      exact List.getLast?_concat _

/-- A robot with nothing simulated, used as concrete input for
drive-model theorems. -/
noncomputable def realRobot : HerbState :=
  { head_sim := false, left_arm_sim := false, right_arm_sim := false
    segway_sim := false, left_ft_sim := false, right_ft_sim := false
    finishTime := fun _ => some 0, trajStatus := fun _ => .done }

/-- A drive environment whose readings are all zero and whose initial
heading is along the x axis. -/
noncomputable def zeroDriveEnv : DriveEnv :=
  { initPose00 := 1, initPose10 := 0, initPos := fun _ => 0
    tareForce := fun _ _ => 0, forceAt := fun _ _ _ => 0
    posAt := fun _ _ => 0, timeAt := fun _ => 0, startTime := 0 }

/-- C2 witness: a concrete run (no monitored arms, `timeout=1`) whose
loop exits on its first pass; the command stream contains the stop
command exactly once, as its last element. -/
theorem c2_stop_exactly_once_witness :
    realRobot.segway_sim = false ∧
    ((realRobot.left_ft_sim && false) || (realRobot.right_ft_sim && false)) = false ∧
    ((driveStraightUntilForce realRobot zeroDriveEnv (fun _ => 1) 1 3 none (some 1)
        false false 1).2.countP SegwayCommand.isStop = 1) ∧
    ((driveStraightUntilForce realRobot zeroDriveEnv (fun _ => 1) 1 3 none (some 1)
        false false 1).2.getLast? = some SegwayCommand.stop) := by
  have hexit : (driveStraightUntilForce realRobot zeroDriveEnv (fun _ => 1) 1 3 none
      (some 1) false false 1).1 ≠ DriveOutcome.stillRunning := by
    rw [show (driveStraightUntilForce realRobot zeroDriveEnv (fun _ => 1) 1 3 none
      (some 1) false false 1).1 = DriveOutcome.raised (.nameError "star_time") from rfl]
    decide
  have h := c2_stop_exactly_once realRobot zeroDriveEnv (fun _ => 1) 1 3 none (some 1)
    false false 1 rfl rfl hexit
  exact ⟨rfl, rfl, h.1, h.2⟩

/-- C4 (code bug): herb.py line 372 reads
`time_now - star_time > timeout`, but the name `star_time` is bound
nowhere in the function or module scope — the assigned local is
`start_time` — so the first loop iteration that reaches the timeout
check (any call with a non-None timeout and no earlier force or
distance exit) raises NameError instead of returning False as the
docstring and spec describe. -/
theorem c4_timeout_check_raises :
    "star_time" ∉ driveScopeNames ∧
    "start_time" ∈ driveScopeNames ∧
    (driveStraightUntilForce realRobot zeroDriveEnv (fun _ => 1) 1 3 none (some 1)
        false false 1).1 = DriveOutcome.raised (.nameError "star_time") :=
  ⟨by decide, by decide, rfl⟩

/-- Robot for the C9 theorems: real base, left force/torque sensor
simulated, right sensor real. -/
noncomputable def c9Robot : HerbState :=
  { head_sim := false, left_arm_sim := false, right_arm_sim := false
    segway_sim := false, left_ft_sim := true, right_ft_sim := false
    finishTime := fun _ => some 0, trajStatus := fun _ => .done }

/-- C9 counterexample: both sensors are requested and only the left one
is simulated, so not every requested sensor is simulated and by the
claim the motion should start; the code nevertheless raises immediately
(herb.py line 322 fails when any requested sensor is simulated), with
an empty command stream. -/
theorem c9_any_simulated_sensor_rejected :
    ¬(c9Robot.left_ft_sim = true ∧ c9Robot.right_ft_sim = true) ∧
    c9Robot.segway_sim = false ∧
    driveStraightUntilForce c9Robot zeroDriveEnv (fun _ => 1) 1 3 none none
        true true 1 = (.raisedSensorSim, []) :=
  ⟨by decide, rfl, rfl⟩

/-- C9 amended: `DriveStraightUntilForce` fails immediately — before
rotating the base or issuing any drive command, with an empty command
stream — when the base itself is simulated (warns and returns None) or
when any requested force/torque sensor is simulated (raises); in these
cases the motion never starts. -/
theorem c9_amended_immediate_failure (robot : HerbState) (env : DriveEnv)
    (direction : Vec3) (velocity fth : ℝ) (md tmo : Option ℝ)
    (la ra : Bool) (fuel : ℕ)
    (h : robot.segway_sim = true ∨
      ((robot.left_ft_sim && la) || (robot.right_ft_sim && ra)) = true) :
    driveStraightUntilForce robot env direction velocity fth md tmo la ra fuel =
      ((if robot.segway_sim then .retNone else .raisedSensorSim), []) := by
  rcases h with h | h
  · simp [driveStraightUntilForce, h]
  · cases hb : robot.segway_sim
    · simp [driveStraightUntilForce, hb, h]
    · simp [driveStraightUntilForce, hb]

/-- C9 witness: with the left sensor simulated and requested on a real
base, the call fails immediately with the sensor error and an empty
command stream. -/
theorem c9_amended_immediate_failure_witness :
    driveStraightUntilForce c9Robot zeroDriveEnv (fun _ => 1) 1 3 none none
        true true 1 =
      ((if c9Robot.segway_sim then .retNone else .raisedSensorSim), []) :=
  c9_amended_immediate_failure c9Robot zeroDriveEnv (fun _ => 1) 1 3 none none
    true true 1 (Or.inr rfl)

theorem norm3_scale (c : ℝ) (hc : 0 ≤ c) (v : Vec3) :
    norm3 (fun i => c * v i) = c * norm3 v := by
  have h : (c * v 0) ^ 2 + (c * v 1) ^ 2 + (c * v 2) ^ 2 =
      c ^ 2 * (v 0 ^ 2 + v 1 ^ 2 + v 2 ^ 2) := by ring
  unfold norm3
  rw [h, Real.sqrt_mul (sq_nonneg c), Real.sqrt_sq hc]

theorem normalize3_scale (c : ℝ) (hc : 0 < c) (v : Vec3) :
    normalize3 (fun i => c * v i) = normalize3 v := by
  funext i
  unfold normalize3
  rw [norm3_scale c hc.le v, mul_div_mul_left _ _ (ne_of_gt hc)]

/-- C10: `DriveStraightUntilForce` normalizes its direction argument
before any use (herb.py lines 327-328), and every later use — the
rotation angle at lines 341-343 and the distance accounting at line
366 — goes through the normalized vector, so scaling a nonzero
direction by any positive factor leaves the entire behavior (rotation
command, distance accounting, streamed commands, and result)
unchanged. -/
theorem c10_direction_scale_invariant (robot : HerbState) (env : DriveEnv)
    (direction : Vec3) (c velocity fth : ℝ) (md tmo : Option ℝ)
    (la ra : Bool) (fuel : ℕ)
    (hv : direction ≠ fun _ => 0) (hc : 0 < c) :
    driveStraightUntilForce robot env (fun i => c * direction i) velocity fth md
        tmo la ra fuel =
      driveStraightUntilForce robot env direction velocity fth md tmo la ra fuel := by
  unfold driveStraightUntilForce
  rw [normalize3_scale c hc direction]

/-- C10 witness: doubling the all-ones direction leaves a concrete run
unchanged. -/
theorem c10_direction_scale_invariant_witness :
    ((fun _ => (1 : ℝ)) : Vec3) ≠ (fun _ => 0) ∧ (0 : ℝ) < 2 ∧
    driveStraightUntilForce realRobot zeroDriveEnv
        (fun i => 2 * ((fun _ => (1 : ℝ)) : Vec3) i) 1 3 none none true true 1 =
      driveStraightUntilForce realRobot zeroDriveEnv ((fun _ => (1 : ℝ)) : Vec3)
        1 3 none none true true 1 :=
  ⟨fun h => one_ne_zero (congrFun h 0), two_pos,
    c10_direction_scale_invariant realRobot zeroDriveEnv (fun _ => 1) 2 1 3 none
      none true true 1 (fun h => one_ne_zero (congrFun h 0)) two_pos⟩
